import Mathlib

/-!
Shallow embedding of the pySTR4500 client (src/pySTR4500/client.py).

The client serializes command field lists into comma-joined strings,
sends them over a TCP socket, and parses XML replies into
`CommandResponse` values.  Here the pure parts (encoding, reply parsing,
command building, argument validation) are embedded as Lean functions;
socket I/O is abstracted as a transport function from the wire message
sent to the reply received, and each operation additionally returns the
list of wire messages it sent, so that "no bytes are sent" is a
provable statement about that trace.
-/

namespace PySTR4500

/-- A Python scalar value as it appears in a command field list.
Python floats are represented by their `str()` rendering, since the
client only ever forwards them textually. -/
inductive PyVal where
  | str (s : String)
  | int (n : Int)
  | bool (b : Bool)
  | float (repr : String)
deriving DecidableEq, Repr

/-- Python `str()` on a scalar: `str(True) = "True"`, `str(False) = "False"`,
integers in decimal, strings unchanged. -/
def pyStr : PyVal → String
  | .str s => s
  | .int n => toString n
  | .bool b => if b then "True" else "False"
  | .float r => r

/-- Python `str(x)` where `x` is `None` or a string (used for element text
that may be missing: `str(None) = "None"`). -/
def pyStrOpt : Option String → String
  | none => "None"
  | some s => s

/-- Python `int(b)` on a boolean. -/
def pyIntOfBool (b : Bool) : Int := if b then 1 else 0

/-- Decimal digit value of a character, `none` for a non-digit. -/
def decDigit? (c : Char) : Option Nat :=
  if c.isDigit then some (c.toNat - 48) else none

/-- Accumulate decimal digits; fails on the first non-digit. -/
def digitsToNatAux : Nat → List Char → Option Nat
  | acc, [] => some acc
  | acc, c :: rest =>
    match decDigit? c with
    | some d => digitsToNatAux (acc * 10 + d) rest
    | none => none

/-- A non-empty all-digit character list as a natural number. -/
def digitsToNat? : List Char → Option Nat
  | [] => none
  | l => digitsToNatAux 0 l

/-- Python `int(s)` on a string, modelled on its sign-and-digits core:
an optional `+`/`-` sign followed by one or more decimal digits
(whitespace stripping and underscore separators are not modelled; no
input considered in this development uses them). -/
def pyParseInt (s : String) : Option Int :=
  match s.data with
  | '-' :: rest => (digitsToNat? rest).map (fun n => -(n : Int))
  | '+' :: rest => (digitsToNat? rest).map (fun n => (n : Int))
  | l => (digitsToNat? l).map (fun n => (n : Int))

/-- The exceptions the client can raise, by raise site.
`runtimeError` carries the formatted message of the corresponding
`RuntimeError` in `CommandResponse.fromstring`; `xmlParseError` is
`xml.etree.ElementTree.ParseError` on unparsable XML; `typeError` and
`valueError` arise from `int()` coercion; `socketError` stands for an
OS-level socket failure in `dispatch`. -/
inductive PyError where
  | xmlParseError
  | typeError
  | valueError (msg : String)
  | runtimeError (msg : String)
  | socketError
deriving DecidableEq, Repr

/-- An XML element's text content as ElementTree reports it:
`none` when the element has no text. An `XDoc` field is `none` when the
child element is absent, `some t` when it is present with text `t`. -/
structure XDoc where
  status : Option (Option String)
  error : Option (Option String)
  data : Option (Option String)
deriving DecidableEq, Repr

/-- The raw reply payload as `CommandResponse.fromstring` sees it:
empty (falsy), non-empty but not well-formed XML, or a parsed document. -/
inductive Reply where
  | empty
  | notXml
  | doc (d : XDoc)
deriving DecidableEq, Repr

/-- `STATUS_VALUES`: the fixed dictionary from integer status codes 0–6
to status names (client.py lines 37–45); `none` models a `KeyError`. -/
def STATUS_VALUES (n : Int) : Option String :=
  if n = 0 then some "No scenario specified"
  else if n = 1 then some "Invalid scenario"
  else if n = 2 then some "Initialised"
  else if n = 3 then some "Arming"
  else if n = 4 then some "Running"
  else if n = 5 then some "Paused"
  else if n = 6 then some "Ended"
  else none

/-- `VEHICLE_ANTENNA` constant. -/
def VEHICLE_ANTENNA : String := "v1_a1"

/-- `CommandResponse`: parsed reply with optional status name and
optional data payload. The Python constructor defaults both to `None`
and performs no validation. -/
structure CommandResponse where
  status : Option String
  data : Option String
deriving DecidableEq, Repr

/-- Python `int(x)` where `x` is `None` or a string: `int(None)` raises
`TypeError`, a non-numeric string raises `ValueError`, otherwise the
parsed integer. -/
def pyIntOfText : Option String → Except PyError Int
  | none => .error .typeError
  | some s =>
    match pyParseInt s with
    | none => .error (.valueError "invalid literal for int() with base 10")
    | some n => .ok n

/-- `CommandResponse.fromstring` (client.py lines 75–107), step by step:
an empty payload returns `CommandResponse()` (both fields `None`);
unparsable XML raises `ParseError`; a missing `status` element raises
`RuntimeError("Invalid STR4500 response: status required.")`; the status
text goes through `int()` (whose `TypeError`/`ValueError` are not caught)
and then the `STATUS_VALUES` lookup, whose `KeyError` becomes
`RuntimeError("Invalid STR4500 status.")`; only then is the `error`
element checked, raising `RuntimeError("STR4500 returned error: %s")`;
finally the optional `data` element's text is taken. -/
def CommandResponse.fromstring : Reply → Except PyError CommandResponse
  | .empty => .ok { status := none, data := none }
  | .notXml => .error .xmlParseError
  | .doc d =>
    match d.status with
    | none => .error (.runtimeError "Invalid STR4500 response: status required.")
    | some txt =>
      match pyIntOfText txt with
      | .error e => .error e
      | .ok n =>
        match STATUS_VALUES n with
        | none => .error (.runtimeError "Invalid STR4500 status.")
        | some st =>
          match d.error with
          | some etxt =>
            .error (.runtimeError ("STR4500 returned error: " ++ pyStrOpt etxt))
          | none => .ok { status := some st, data := d.data.join }

/-- Python `','.join` on a list of strings. -/
def joinComma : List String → String
  | [] => ""
  | [x] => x
  | x :: xs => x ++ "," ++ joinComma xs

/-- `encode` (client.py lines 109–120): `','.join(map(str, cmd))`. -/
def encode (cmd : List PyVal) : String := joinComma (cmd.map pyStr)

/-- The transport: `dispatch` opens a socket, sends the message and
returns the raw reply. It is abstracted as a function from the wire
message to either a socket-level failure or the received payload. -/
def Transport : Type := String → Except PyError Reply

/-- A transport that always answers with the same reply. -/
def constReply (r : Reply) : Transport := fun _ => .ok r

/-- `handle` (client.py lines 153–173): encode the command, send it,
parse the reply. The first component is the trace of wire messages
sent by this call. -/
def handle (t : Transport) (cmd : List PyVal) :
    List String × Except PyError CommandResponse :=
  let msg := encode cmd
  ([msg], (t msg).bind CommandResponse.fromstring)

/-- The channel/satellite index argument as it is placed into the
command list (Python would pass the object through to `str`). -/
def pyValOfOptInt : Option Int → PyVal
  | none => .str "None"
  | some n => .int n

namespace Channel

/-- `Channel.is_chan = int(True)`. -/
def is_chan : Int := 1

/-- `Channel.all_chans = int(False)`. -/
def all_chans : Int := 0

/-- `Channel.is_valid` (client.py lines 187–189):
`chan is not None and 0 <= chan <= 11`. -/
def is_valid (chan : Option Int) : Bool :=
  match chan with
  | none => false
  | some c => decide (0 ≤ c) && decide (c ≤ 11)

/-- `Channel.set_power` (client.py lines 191–216). -/
def set_power (t : Transport) (chan : Option Int) (on_ : Bool)
    (timestamp : String) : List String × Except PyError CommandResponse :=
  if is_valid chan then
    handle t [.str timestamp, .str "POW_ON", .str VEHICLE_ANTENNA,
              .int (pyIntOfBool on_), pyValOfOptInt chan,
              .int is_chan, .int all_chans]
  else ([], .error (.valueError "Invalid channel value."))

/-- `Channel.set_power_mode` (client.py lines 218–243). -/
def set_power_mode (t : Transport) (chan : Option Int) (mode : Int)
    (timestamp : String) : List String × Except PyError CommandResponse :=
  if is_valid chan then
    handle t [.str timestamp, .str "POW_MODE", .str VEHICLE_ANTENNA,
              .int mode, pyValOfOptInt chan, .int is_chan, .int all_chans]
  else ([], .error (.valueError "Invalid channel value."))

/-- `Channel.set_power_level` (client.py lines 245–272); the float
`level` is carried as its `str()` rendering. -/
def set_power_level (t : Transport) (chan : Option Int) (level : PyVal)
    (absolute : Bool) (timestamp : String) :
    List String × Except PyError CommandResponse :=
  if is_valid chan then
    handle t [.str timestamp, .str "POW_LEV", .str VEHICLE_ANTENNA,
              level, pyValOfOptInt chan, .int is_chan, .int all_chans,
              .int (pyIntOfBool absolute)]
  else ([], .error (.valueError "Invalid channel value."))

/-- `Channel.set_prn` (client.py lines 274–297). -/
def set_prn (t : Transport) (chan : Option Int) (on_ : Bool)
    (timestamp : String) : List String × Except PyError CommandResponse :=
  if is_valid chan then
    handle t [.str timestamp, .str "PRN_CODE", pyValOfOptInt chan,
              .int all_chans, .int (pyIntOfBool on_)]
  else ([], .error (.valueError "Invalid channel value."))

end Channel

namespace Satellite

/-- `Satellite.is_chan = int(True)`. -/
def is_chan : Int := 1

/-- `Satellite.all_chans = int(False)`. -/
def all_chans : Int := 0

/-- `Satellite.is_valid` (client.py lines 311–313):
`sat is not None and 0 < sat <= 32`. -/
def is_valid (sat : Option Int) : Bool :=
  match sat with
  | none => false
  | some s => decide (0 < s) && decide (s ≤ 32)

/-- `Satellite.set_power` (client.py lines 315–338). Note: unlike the
other Satellite methods, the source performs no `is_valid` check here
and goes straight to `handle`. -/
def set_power (t : Transport) (sat : Option Int) (on_ : Bool)
    (timestamp : String) : List String × Except PyError CommandResponse :=
  handle t [.str timestamp, .str "POW_ON", .str VEHICLE_ANTENNA,
            .int (pyIntOfBool on_), pyValOfOptInt sat,
            .int is_chan, .int all_chans]

/-- `Satellite.set_power_mode` (client.py lines 340–365). -/
def set_power_mode (t : Transport) (sat : Option Int) (mode : Int)
    (timestamp : String) : List String × Except PyError CommandResponse :=
  if is_valid sat then
    handle t [.str timestamp, .str "POW_MODE", .str VEHICLE_ANTENNA,
              .int mode, pyValOfOptInt sat, .int is_chan, .int all_chans]
  else ([], .error (.valueError "Invalid satellite value."))

/-- `Satellite.set_power_level` (client.py lines 367–394). -/
def set_power_level (t : Transport) (sat : Option Int) (level : PyVal)
    (absolute : Bool) (timestamp : String) :
    List String × Except PyError CommandResponse :=
  if is_valid sat then
    handle t [.str timestamp, .str "POW_LEV", .str VEHICLE_ANTENNA,
              level, pyValOfOptInt sat, .int is_chan, .int all_chans,
              .int (pyIntOfBool absolute)]
  else ([], .error (.valueError "Invalid satellite value."))

end Satellite

namespace STR4500

/-- `STR4500.chan = 0` (the global channel index class attribute). -/
def chan : Int := 0

/-- `STR4500.is_chan = int(True)`. -/
def is_chan : Int := 1

/-- `STR4500.all_chans = int(True)`. -/
def all_chans : Int := 1

/-- `STR4500.status` (client.py lines 487–497): `handle(host, port, ["NULL"])`. -/
def status (t : Transport) : List String × Except PyError CommandResponse :=
  handle t [.str "NULL"]

/-- `STR4500.set_power` (client.py lines 544–565): global power on/off. -/
def set_power (t : Transport) (on_ : Bool) (timestamp : String) :
    List String × Except PyError CommandResponse :=
  handle t [.str timestamp, .str "POW_ON", .str VEHICLE_ANTENNA,
            .int (pyIntOfBool on_), .int chan, .int is_chan, .int all_chans]

/-- `STR4500.time` (client.py lines 675–686):
`int(handle(host, port, ["TIME"]).data)`. -/
def time (t : Transport) : List String × Except PyError Int :=
  let r := handle t [.str "TIME"]
  (r.1, r.2.bind (fun resp => pyIntOfText resp.data))

end STR4500

/-- The state an `STR4500` instance holds after `__init__`. -/
structure STR4500State where
  host : String
  port : Int
  connected : Bool
deriving DecidableEq, Repr

/-- `STR4500.__init__` (client.py lines 419–425): stores host and port,
then issues one `status()` (NULL) round trip; any exception from it
propagates out of the constructor. `connected = self.status() is not None`,
where `status()` returns the `CommandResponse` object (`some resp` here),
so the `is not None` test is `Option.isSome` of an always-`some` value. -/
def STR4500.init (host : String) (port : Int) (t : Transport) :
    List String × Except PyError STR4500State :=
  let r := STR4500.status t
  (r.1,
   match r.2 with
   | .error e => .error e
   | .ok resp => .ok { host := host, port := port, connected := (some resp).isSome })

/-- Which exceptions the specification calls `ProtocolError`: unparsable
XML, a missing `status` element, or a status code outside the fixed
enumeration. -/
def isProtocolError : PyError → Bool
  | .xmlParseError => true
  | .runtimeError m =>
    m = "Invalid STR4500 status." || m = "Invalid STR4500 response: status required."
  | _ => false

/-- `CommandResponse.fromstring` applied to a reply fails with a
`ProtocolError` (and in particular returns no response). -/
def failsWithProtocolError (r : Reply) : Bool :=
  match CommandResponse.fromstring r with
  | .error e => isProtocolError e
  | .ok _ => false

/-- The status field holds one of the seven names of `STATUS_VALUES`. -/
def isValidStatusField (o : Option String) : Bool :=
  o.isSome && (List.range 7).any (fun k => STATUS_VALUES (k : Int) == o)

/-- A status code outside 0–6 is not in the `STATUS_VALUES` dictionary. -/
theorem STATUS_VALUES_eq_none (n : Int) (h : n < 0 ∨ 6 < n) :
    STATUS_VALUES n = none := by
  unfold STATUS_VALUES
  split_ifs <;> first | rfl | (exfalso; omega)

/-- A name produced by the `STATUS_VALUES` lookup is a valid status field. -/
theorem isValidStatusField_of_lookup (n : Int) (st : String)
    (h : STATUS_VALUES n = some st) : isValidStatusField (some st) = true := by
  unfold STATUS_VALUES at h
  split_ifs at h <;> (injection h with h2; subst h2; decide)

/-- C1 counterexample: the reply document `<msg><error>boom</error></msg>`
contains an `error` element, yet `fromstring` fails with the
missing-status `RuntimeError`, not with a `DeviceError` carrying the
text `boom` — the status check precedes the error check. -/
theorem C1_counterexample :
    CommandResponse.fromstring (.doc ⟨none, some (some "boom"), none⟩)
      = .error (.runtimeError "Invalid STR4500 response: status required.")
    ∧ CommandResponse.fromstring (.doc ⟨none, some (some "boom"), none⟩)
      ≠ .error (.runtimeError "STR4500 returned error: boom") := by
  constructor
  · rfl
  · intro h
    simp [CommandResponse.fromstring] at h

/-- C1 (amended): for every reply document that contains an `error`
element AND a `status` element whose text parses to a code in the
`STATUS_VALUES` dictionary, `fromstring` fails with the device error
carrying the error element's text; when the status is missing or
unmapped, that failure takes precedence instead. -/
theorem C1_amended (s name : String) (n : Int) (etxt : Option String)
    (da : Option (Option String))
    (hn : pyParseInt s = some n) (hv : STATUS_VALUES n = some name) :
    CommandResponse.fromstring (.doc ⟨some (some s), some etxt, da⟩)
      = .error (.runtimeError ("STR4500 returned error: " ++ pyStrOpt etxt)) := by
  simp [CommandResponse.fromstring, pyIntOfText, hn, hv]

/-- C1 witness: the amended statement at the concrete document
`<msg><status>4</status><error>boom</error></msg>`. -/
theorem C1_witness :
    pyParseInt "4" = some 4 ∧ STATUS_VALUES 4 = some "Running"
    ∧ CommandResponse.fromstring (.doc ⟨some (some "4"), some (some "boom"), none⟩)
      = .error (.runtimeError ("STR4500 returned error: " ++ pyStrOpt (some "boom"))) :=
  ⟨by decide, by decide,
   C1_amended "4" "Running" 4 (some "boom") none (by decide) (by decide)⟩

/-- C2: the code at the failing input. `Satellite.set_power`, unlike the
other Channel/Satellite methods, performs no `is_valid` check: called
with the out-of-range satellite id 33 it sends the wire message
`-,POW_ON,v1_a1,1,33,1,0` instead of raising before any I/O. -/
theorem C2_sat_set_power_sends_without_validation :
    Satellite.is_valid (some 33) = false
    ∧ (Satellite.set_power (constReply .empty) (some 33) true "-").1
      = ["-,POW_ON,v1_a1,1,33,1,0"] := by
  exact ⟨by decide, by decide⟩

/-- C3: the code at the failing input. On an empty reply payload,
`fromstring` does not raise; it returns `CommandResponse()` with both
status and data absent (the `TODO` in the source admits an exception is
the intended behaviour). -/
theorem C3_empty_reply_returns_empty_response :
    CommandResponse.fromstring .empty = .ok { status := none, data := none } := rfl

/-- C4: for every status code N in 0..6, parsing
`<msg><status>N</status></msg>` succeeds with the corresponding name of
the seven-entry enumeration and an absent data payload. -/
theorem C4_status_codes_parse :
    CommandResponse.fromstring (.doc ⟨some (some "0"), none, none⟩)
      = .ok ⟨some "No scenario specified", none⟩
    ∧ CommandResponse.fromstring (.doc ⟨some (some "1"), none, none⟩)
      = .ok ⟨some "Invalid scenario", none⟩
    ∧ CommandResponse.fromstring (.doc ⟨some (some "2"), none, none⟩)
      = .ok ⟨some "Initialised", none⟩
    ∧ CommandResponse.fromstring (.doc ⟨some (some "3"), none, none⟩)
      = .ok ⟨some "Arming", none⟩
    ∧ CommandResponse.fromstring (.doc ⟨some (some "4"), none, none⟩)
      = .ok ⟨some "Running", none⟩
    ∧ CommandResponse.fromstring (.doc ⟨some (some "5"), none, none⟩)
      = .ok ⟨some "Paused", none⟩
    ∧ CommandResponse.fromstring (.doc ⟨some (some "6"), none, none⟩)
      = .ok ⟨some "Ended", none⟩ :=
  ⟨rfl, rfl, rfl, rfl, rfl, rfl, rfl⟩

/-- C5: every non-empty reply that is not well-formed XML, or lacks a
`status` element, or carries a status integer outside 0..6, makes
`fromstring` fail with a protocol error (so no `CommandResponse` is
returned). -/
theorem C5_invalid_reply_fails_protocol (r : Reply)
    (h : r = .notXml
       ∨ (∃ d, r = .doc d ∧ d.status = none)
       ∨ (∃ d s n, r = .doc d ∧ d.status = some (some s)
            ∧ pyParseInt s = some n ∧ (n < 0 ∨ 6 < n))) :
    failsWithProtocolError r = true := by
  rcases h with rfl | ⟨d, rfl, hs⟩ | ⟨d, s, n, rfl, hs, hn, hout⟩
  · decide
  · simp [failsWithProtocolError, CommandResponse.fromstring, hs, isProtocolError]
  · have hsv : STATUS_VALUES n = none := STATUS_VALUES_eq_none n hout
    simp [failsWithProtocolError, CommandResponse.fromstring, hs, pyIntOfText,
          hn, hsv, isProtocolError]

/-- C5 witness: the statement at the concrete non-XML reply. -/
theorem C5_witness : failsWithProtocolError .notXml = true :=
  C5_invalid_reply_fails_protocol .notXml (Or.inl rfl)

/-- C6 counterexample: the public operation `fromstring` applied to an
empty reply successfully builds a `CommandResponse` whose status is
absent — no construction-time failure occurs, refuting the invariant as
stated. -/
theorem C6_counterexample :
    CommandResponse.fromstring .empty = .ok { status := none, data := none }
    ∧ isValidStatusField ({ status := none, data := none } : CommandResponse).status
      = false :=
  ⟨rfl, rfl⟩

/-- C6 (amended): every `CommandResponse` that `fromstring` returns from
a parsed (non-empty) XML document has a present status equal to one of
the seven enumeration names; only the empty-payload branch (and the
unvalidated bare constructor) can produce an absent status. -/
theorem C6_amended (d : XDoc) (resp : CommandResponse)
    (h : CommandResponse.fromstring (.doc d) = .ok resp) :
    isValidStatusField resp.status = true := by
  obtain ⟨ds, de, dd⟩ := d
  cases ds with
  | none => simp [CommandResponse.fromstring] at h
  | some txt =>
    cases hi : pyIntOfText txt with
    | error e => simp [CommandResponse.fromstring, hi] at h
    | ok n =>
      cases hv : STATUS_VALUES n with
      | none => simp [CommandResponse.fromstring, hi, hv] at h
      | some st =>
        cases de with
        | some etxt => simp [CommandResponse.fromstring, hi, hv] at h
        | none =>
          simp [CommandResponse.fromstring, hi, hv] at h
          rw [← h]
          exact isValidStatusField_of_lookup n st hv

/-- C6 witness: the amended statement at the concrete document
`<msg><status>4</status></msg>`. -/
theorem C6_witness :
    CommandResponse.fromstring (.doc ⟨some (some "4"), none, none⟩)
      = .ok ⟨some "Running", none⟩
    ∧ isValidStatusField (CommandResponse.mk (some "Running") none).status = true :=
  ⟨rfl, C6_amended ⟨some (some "4"), none, none⟩ ⟨some "Running", none⟩ rfl⟩

/-- C7 counterexample: `encode` applied to a raw Python boolean renders
it as `"True"` (Python `str(True)`), not `"1"` — callers pre-convert
booleans with `int()` before encoding. -/
theorem C7_counterexample :
    encode [PyVal.bool true] = "True" ∧ encode [PyVal.bool true] ≠ "1" :=
  ⟨rfl, by decide⟩

/-- C7 (amended): `encode` joins the fields' Python `str()` forms with
`,` and never fails; a leading field contributes its text followed by a
comma exactly when more fields follow; booleans are rendered `True`/
`False` by `str()` (the call sites pass `int(on)` so the wire carries
1/0); in particular `encode(["-", "EN", 0, 0]) = "-,EN,0,0"` and
`encode(["RU"]) = "RU"`. -/
theorem C7_amended :
    (∀ (v : PyVal) (rest : List PyVal),
        encode (v :: rest)
          = pyStr v ++ (if rest.isEmpty then "" else "," ++ encode rest))
    ∧ encode [PyVal.str "-", .str "EN", .int 0, .int 0] = "-,EN,0,0"
    ∧ encode [PyVal.str "RU"] = "RU"
    ∧ encode [PyVal.bool true] = "True" := by
  refine ⟨?_, rfl, rfl, rfl⟩
  intro v rest
  cases rest with
  | nil => simp [encode, joinComma]
  | cons w ws => simp [encode, joinComma, String.append_assoc]

/-- C7 witness: the join rule of the amended statement at a concrete
two-field list. -/
theorem C7_witness :
    encode [PyVal.int 7, PyVal.int 8]
      = pyStr (PyVal.int 7)
        ++ (if ([PyVal.int 8] : List PyVal).isEmpty then ""
            else "," ++ encode [PyVal.int 8]) :=
  C7_amended.1 (PyVal.int 7) [PyVal.int 8]

/-- C8: the global `set_power` sends exactly
`-,POW_ON,v1_a1,<on>,0,1,1` and the channel-addressed `set_power` sends
exactly `-,POW_ON,v1_a1,<on>,<chan>,1,0`, for every boolean `on` and
every valid channel index. -/
theorem C8_pow_on_wire (t : Transport) (on_ : Bool) (c : Int)
    (h0 : 0 ≤ c) (h1 : c ≤ 11) :
    (STR4500.set_power t on_ "-").1
      = ["-,POW_ON,v1_a1," ++ (if on_ then "1" else "0") ++ ",0,1,1"]
    ∧ (Channel.set_power t (some c) on_ "-").1
      = ["-,POW_ON,v1_a1," ++ (if on_ then "1" else "0") ++ ","
          ++ toString c ++ ",1,0"] := by
  interval_cases c <;> cases on_ <;> exact ⟨rfl, rfl⟩

/-- C8 witness: the two wire strings of the claim,
`set_power(on=True)` globally and `set_power(chan=5, on=False)`. -/
theorem C8_witness :
    ((0 : Int) ≤ 5 ∧ (5 : Int) ≤ 11)
    ∧ (STR4500.set_power (constReply .empty) true "-").1
      = ["-,POW_ON,v1_a1,1,0,1,1"]
    ∧ (Channel.set_power (constReply .empty) (some 5) false "-").1
      = ["-,POW_ON,v1_a1,0,5,1,0"] :=
  ⟨⟨by decide, by decide⟩,
   ((C8_pow_on_wire (constReply .empty) true 5 (by decide) (by decide)).1).trans
     (by decide),
   ((C8_pow_on_wire (constReply .empty) false 5 (by decide) (by decide)).2).trans
     (by decide)⟩

/-- C9: the constructor issues exactly one NULL round trip; a transport
or parse failure in that round trip fails construction with the same
exception; and every successfully constructed instance has
`connected = true`. -/
theorem C9_init_null_roundtrip (host : String) (port : Int) (t : Transport) :
    (STR4500.init host port t).1 = ["NULL"]
    ∧ (∀ e, (STR4500.status t).2 = .error e
          → (STR4500.init host port t).2 = .error e)
    ∧ (∀ st, (STR4500.init host port t).2 = .ok st → st.connected = true) := by
  refine ⟨rfl, ?_, ?_⟩
  · intro e he
    simp [STR4500.init, he]
  · intro st hst
    cases h2 : (STR4500.status t).2 with
    | error e => simp [STR4500.init, h2] at hst
    | ok resp =>
      simp [STR4500.init, h2] at hst
      rw [← hst]

/-- C9 witness: constructing against a transport that answers
`<msg><status>4</status></msg>` sends exactly one NULL command and
succeeds with `connected = true`. -/
theorem C9_witness :
    (STR4500.init "127.0.0.1" 15650
        (constReply (.doc ⟨some (some "4"), none, none⟩))).1 = ["NULL"]
    ∧ (STR4500.init "127.0.0.1" 15650
        (constReply (.doc ⟨some (some "4"), none, none⟩))).2
      = .ok ⟨"127.0.0.1", 15650, true⟩ :=
  ⟨(C9_init_null_roundtrip "127.0.0.1" 15650
      (constReply (.doc ⟨some (some "4"), none, none⟩))).1, rfl⟩

/-- C10: when the TIME reply parses to a response, `time()` raises a
`TypeError` from `int(None)` if the response has no data payload; it
returns a value only when the data text parses as an integer, and then
returns exactly that integer. -/
theorem C10_time_int_coercion (t : Transport) (resp : CommandResponse)
    (h : (handle t [.str "TIME"]).2 = .ok resp) :
    (resp.data = none → (STR4500.time t).2 = .error .typeError)
    ∧ (∀ s n, resp.data = some s → pyParseInt s = some n
         → (STR4500.time t).2 = .ok n)
    ∧ (∀ n, (STR4500.time t).2 = .ok n
         → ∃ s, resp.data = some s ∧ pyParseInt s = some n) := by
  have ht : (STR4500.time t).2 = pyIntOfText resp.data := by
    simp [STR4500.time, h, Except.bind]
  refine ⟨?_, ?_, ?_⟩
  · intro hd; rw [ht, hd]; rfl
  · intro s n hd hp; rw [ht, hd]; simp [pyIntOfText, hp]
  · intro n hn
    rw [ht] at hn
    cases hd : resp.data with
    | none => rw [hd] at hn; simp [pyIntOfText] at hn
    | some s =>
      rw [hd] at hn
      cases hp : pyParseInt s with
      | none => simp [pyIntOfText, hp] at hn
      | some m =>
        simp [pyIntOfText, hp] at hn
        exact ⟨s, rfl, by rw [hp, hn]⟩

/-- C10 witness: against a transport answering
`<msg><status>4</status><data>42</data></msg>`, `time()` returns 42;
against one answering without a data element, it fails with the
`TypeError` of `int(None)`. -/
theorem C10_witness :
    (handle (constReply (.doc ⟨some (some "4"), none, some (some "42")⟩))
        [.str "TIME"]).2 = .ok ⟨some "Running", some "42"⟩
    ∧ (STR4500.time (constReply (.doc ⟨some (some "4"), none, some (some "42")⟩))).2
      = .ok 42 :=
  ⟨rfl,
   (C10_time_int_coercion (constReply (.doc ⟨some (some "4"), none, some (some "42")⟩))
       ⟨some "Running", some "42"⟩ rfl).2.1 "42" 42 rfl (by decide)⟩

end PySTR4500
